import Mathlib

/-!
Verification of the CppCommon synchronization and timing core: a shallow
embedding of the calendar-time conversions in source/time/time.cpp and the
read/write lock timed-acquire logic in source/threads/rw_lock.cpp, together
with theorems settling the specified properties.

Machine integers are modelled as Nat/Int with explicit reduction modulo 2^64
where the C++ code performs uint64_t arithmetic.  Fallible operations return
Except.  Platform calendar calls (timegm/gmtime_r) and the Timestamp field
accessors, whose sources are outside the analysed tree, are modelled from the
specification and marked as such in their doc comments.
-/

set_option maxRecDepth 10000
set_option maxHeartbeats 1000000

namespace CppCommon

instance {ε α : Type} [DecidableEq ε] [DecidableEq α] : DecidableEq (Except ε α) := fun x y =>
  match x, y with
  | .ok a, .ok b =>
    if h : a = b then .isTrue (h ▸ rfl) else .isFalse (fun hh => h (Except.ok.inj hh))
  | .error a, .error b =>
    if h : a = b then .isTrue (h ▸ rfl) else .isFalse (fun hh => h (Except.error.inj hh))
  | .ok _, .error _ => .isFalse (fun hh => Except.noConfusion hh)
  | .error _, .ok _ => .isFalse (fun hh => Except.noConfusion hh)

/-- Error outcomes of the library: ArgumentException and SystemException of
errors/exceptions.h, carrying the message text used at the throw site. -/
inductive Err where
  | argument (msg : String)
  | system (msg : String)
deriving DecidableEq, Repr

/-- Gregorian leap-year rule used by the platform calendar. -/
def isLeap (y : Nat) : Bool := (y % 4 == 0 && y % 100 != 0) || (y % 400 == 0)

/-- Length of February in year y. -/
def feb (y : Nat) : Nat := if isLeap y then 29 else 28

/-- Number of days in month m (1..12) of year y. -/
def daysInMonth (y m : Nat) : Nat :=
  match m with
  | 1 => 31
  | 2 => feb y
  | 3 => 31
  | 4 => 30
  | 5 => 31
  | 6 => 30
  | 7 => 31
  | 8 => 31
  | 9 => 30
  | 10 => 31
  | 11 => 30
  | 12 => 31
  | _ => 31

/-- Days of year y elapsed before the first day of month m (1..12). -/
def cumDays (y m : Nat) : Nat :=
  match m with
  | 1 => 0
  | 2 => 31
  | 3 => 31 + feb y
  | 4 => 62 + feb y
  | 5 => 92 + feb y
  | 6 => 123 + feb y
  | 7 => 153 + feb y
  | 8 => 184 + feb y
  | 9 => 215 + feb y
  | 10 => 245 + feb y
  | 11 => 276 + feb y
  | 12 => 306 + feb y
  | _ => 306 + feb y

/-- Number of days in year y (365 or 366). -/
def daysInYear (y : Nat) : Nat := 337 + feb y

/-- Recovers (month, day-of-month) from a zero-based day-of-year. -/
def monthDayFromDoy (y doy : Nat) : Nat × Nat :=
  if doy < 31 then (1, doy + 1)
  else if doy < 31 + feb y then (2, doy - 31 + 1)
  else if doy < 62 + feb y then (3, doy - (31 + feb y) + 1)
  else if doy < 92 + feb y then (4, doy - (62 + feb y) + 1)
  else if doy < 123 + feb y then (5, doy - (92 + feb y) + 1)
  else if doy < 153 + feb y then (6, doy - (123 + feb y) + 1)
  else if doy < 184 + feb y then (7, doy - (153 + feb y) + 1)
  else if doy < 215 + feb y then (8, doy - (184 + feb y) + 1)
  else if doy < 245 + feb y then (9, doy - (215 + feb y) + 1)
  else if doy < 276 + feb y then (10, doy - (245 + feb y) + 1)
  else if doy < 306 + feb y then (11, doy - (276 + feb y) + 1)
  else (12, doy - (306 + feb y) + 1)

/-- Days from 1970-01-01 to the first day of year y (0 for years up to 1970). -/
def yearsDays : Nat → Nat
  | 0 => 0
  | y + 1 => if y + 1 ≤ 1970 then 0 else yearsDays y + daysInYear y

/-- Days from 1970-01-01 to civil date (y, m, d); a day-of-month beyond the
length of the month normalizes forward into the following months, exactly as
the platform timegm/mktime normalization does. -/
def daysFromCivil (y m d : Nat) : Nat := yearsDays y + cumDays y m + (d - 1)

/-- Fueled year scan: starting from year y with z days remaining, subtracts
whole years until fewer than one year of days remains. -/
def civilYearAux : Nat → Nat → Nat → Nat × Nat
  | 0, y, z => (y, z)
  | fuel + 1, y, z =>
    if z < daysInYear y then (y, z) else civilYearAux fuel (y + 1) (z - daysInYear y)

/-- Recovers (year, day-of-year) from a count of days since 1970-01-01. -/
def civilFromDays (z : Nat) : Nat × Nat := civilYearAux (z + 1) 1970 z

/-- Broken-down time, mirroring the fields of struct tm that time.cpp reads
and writes: tm_sec, tm_min, tm_hour, tm_mday, tm_mon (0-based), tm_year
(offset from 1900). -/
structure Tm where
  sec : Nat
  min : Nat
  hour : Nat
  mday : Nat
  mon : Nat
  year : Nat
deriving DecidableEq, Repr

/-- Modelled from the spec: the whole-second result of the platform UTC
calendar composition call (timegm-equivalent), "convert the date/time fields
to whole seconds via the platform UTC calendar composition call".  Faithful
on the in-range domain reachable through the validated constructor
(tm_year + 1900 at least 1970, tm_mon in 0..11, tm_mday at least 1). -/
def timegmSecs (t : Tm) : Nat :=
  daysFromCivil (t.year + 1900) (t.mon + 1) t.mday * 86400 +
    t.hour * 3600 + t.min * 60 + t.sec

/-- Modelled from the spec: the platform timegm-equivalent as called by
Time::utcstamp; returns seconds since the epoch (never -1 on this domain). -/
def timegmModel (t : Tm) : Int := Int.ofNat (timegmSecs t)

/-- Modelled from the spec: the platform gmtime_r-equivalent, "convert whole
seconds to broken-down fields using UTC rules". -/
def gmtimeModel (secs : Nat) : Tm :=
  let days := secs / 86400
  let rem := secs % 86400
  let yd := civilFromDays days
  let md := monthDayFromDoy yd.1 yd.2
  { sec := rem % 60, min := rem % 3600 / 60, hour := rem / 3600,
    mday := md.2, mon := md.1 - 1, year := yd.1 - 1900 }

/-- Calendar Time value: the nine fields of CppCommon::Time.  The C++ fields
are int; every reachable construction (validated compose or platform
decompose) yields the non-negative values stored here. -/
structure Time where
  year : Nat
  month : Nat
  day : Nat
  hour : Nat
  minute : Nat
  second : Nat
  millisecond : Nat
  microsecond : Nat
  nanosecond : Nat
deriving DecidableEq, Repr

/-- The struct tm filled by Time::utcstamp / Time::localstamp before the
platform composition call (tm_isdst, which the model ignores, is set to -1
by the source). -/
def Time.toTm (t : Time) : Tm :=
  { sec := t.second, min := t.minute, hour := t.hour,
    mday := t.day, mon := t.month - 1, year := t.year - 1900 }

/-- Field checks of Time::Time(int, ...) after the year check: each field is
tested against its documented range in source order, throwing
ArgumentException with the source message on the first violation. -/
def Time.createBody (year month day hour minute second millisecond microsecond nanosecond : Int) :
    Except Err Time :=
  if month < 1 ∨ 12 < month then
    .error (.argument "Month value is limited in range from 1 to 12!")
  else if day < 1 ∨ 31 < day then
    .error (.argument "Day value is limited in range from 1 to 31!")
  else if hour < 0 ∨ 23 < hour then
    .error (.argument "Hour value is limited in range from 0 to 23!")
  else if minute < 0 ∨ 59 < minute then
    .error (.argument "Minute value is limited in range from 0 to 59!")
  else if second < 0 ∨ 59 < second then
    .error (.argument "Second value is limited in range from 0 to 59!")
  else if millisecond < 0 ∨ 999 < millisecond then
    .error (.argument "Millisecond value is limited in range from 0 to 999!")
  else if microsecond < 0 ∨ 999 < microsecond then
    .error (.argument "Microsecond value is limited in range from 0 to 999!")
  else if nanosecond < 0 ∨ 999 < nanosecond then
    .error (.argument "Nanosecond value is limited in range from 0 to 999!")
  else
    .ok ⟨year.toNat, month.toNat, day.toNat, hour.toNat, minute.toNat,
         second.toNat, millisecond.toNat, microsecond.toNat, nanosecond.toNat⟩

/-- Time::Time(int year, ...): is32 models sizeof(time_t) == 4; the year is
validated first with the platform-dependent bound, then the remaining fields
in source order.  No platform conversion call occurs here: composition to a
timestamp is a separate operation (Time::utcstamp / Time::localstamp). -/
def Time.create (is32 : Bool) (year month day hour minute second millisecond microsecond nanosecond : Int) :
    Except Err Time :=
  match is32 with
  | true =>
    if year < 1970 ∨ 2038 < year then
      .error (.argument "Year value is limited in range from 1970 to 2038!")
    else Time.createBody year month day hour minute second millisecond microsecond nanosecond
  | false =>
    if year < 1970 ∨ 3000 < year then
      .error (.argument "Year value is limited in range from 1970 to 3000!")
    else Time.createBody year month day hour minute second millisecond microsecond nanosecond

/-- Time::utcstamp generic over the platform composition call: on -1 throws
SystemException, otherwise returns
time * 1000000000ull + ms * 1000000ull + us * 1000ull + ns computed in
uint64_t, i.e. reduced modulo 2^64. -/
def utcstampGen (timegm : Tm → Int) (t : Time) : Except Err Nat :=
  if timegm t.toTm = -1 then .error (.system "Cannot convert date & time to UTC timestamp!")
  else .ok (((timegm t.toTm * 1000000000 + (t.millisecond : Int) * 1000000 +
      (t.microsecond : Int) * 1000 + (t.nanosecond : Int)) % (2 ^ 64 : Int)).toNat)

/-- Time::localstamp generic over the platform mktime-equivalent call; same
arithmetic as utcstampGen with the local SystemException message. -/
def localstampGen (mktime : Tm → Int) (t : Time) : Except Err Nat :=
  if mktime t.toTm = -1 then .error (.system "Cannot convert date & time to local timestamp!")
  else .ok (((mktime t.toTm * 1000000000 + (t.millisecond : Int) * 1000000 +
      (t.microsecond : Int) * 1000 + (t.nanosecond : Int)) % (2 ^ 64 : Int)).toNat)

/-- Time::utcstamp with the modelled platform call. -/
def Time.utcstamp (t : Time) : Except Err Nat := utcstampGen timegmModel t

/-- The mathematical (unwrapped) epoch nanosecond count of a composed Time:
seconds from the platform call times 10^9 plus the sub-second contributions. -/
def epochNs (t : Time) : Nat :=
  timegmSecs t.toTm * 1000000000 + t.millisecond * 1000000 +
    t.microsecond * 1000 + t.nanosecond

/-- Time::Time(const Timestamp&) generic over the platform decomposition
call g (gmtime_r-equivalent, applied to timestamp.seconds()); on failure
throws SystemException, otherwise fills the fields exactly as the source:
seconds-level fields from the broken-down result (with tm_sec reduced
modulo 60), sub-second fields from the timestamp total milliseconds /
microseconds / nanoseconds each reduced modulo 1000.
Modelled from the spec: the Timestamp accessors seconds(), milliseconds(),
microseconds(), nanoseconds() are the total divided by 10^9, 10^6, 10^3, 1. -/
def decomposeGen (g : Nat → Option Tm) (ts : Nat) : Except Err Time :=
  match g (ts / 1000000000) with
  | none => .error (.system ("Cannot convert the given timestamp (" ++ toString ts ++
      ") to date & time structure!"))
  | some r =>
    .ok ⟨r.year + 1900, r.mon + 1, r.mday, r.hour, r.min, r.sec % 60,
         ts / 1000000 % 1000, ts / 1000 % 1000, ts % 1000⟩

/-- The total decomposition with a total platform call g : Nat → Tm. -/
def decomposeWith (g : Nat → Tm) (ts : Nat) : Time :=
  ⟨(g (ts / 1000000000)).year + 1900, (g (ts / 1000000000)).mon + 1,
   (g (ts / 1000000000)).mday, (g (ts / 1000000000)).hour,
   (g (ts / 1000000000)).min, (g (ts / 1000000000)).sec % 60,
   ts / 1000000 % 1000, ts / 1000 % 1000, ts % 1000⟩

/-- Time::Time(const Timestamp&) (and the identical UtcTime::UtcTime) with
the modelled platform gmtime_r. -/
def decomposeTime (ts : Nat) : Time := decomposeWith gmtimeModel ts

/-- The documented field-range invariant of a Calendar Time (64-bit-epoch
year bound). -/
def fieldRangesOk (t : Time) : Prop :=
  1970 ≤ t.year ∧ t.year ≤ 3000 ∧ 1 ≤ t.month ∧ t.month ≤ 12 ∧
  1 ≤ t.day ∧ t.day ≤ 31 ∧ t.hour ≤ 23 ∧ t.minute ≤ 59 ∧ t.second ≤ 59 ∧
  t.millisecond ≤ 999 ∧ t.microsecond ≤ 999 ∧ t.nanosecond ≤ 999

instance (t : Time) : Decidable (fieldRangesOk t) := by
  unfold fieldRangesOk; infer_instance

/-- Validity of the constructor arguments per the documented ranges, with the
year bound selected by the epoch-counter width. -/
def validFields (is32 : Bool) (year month day hour minute second millisecond microsecond nanosecond : Int) :
    Prop :=
  (match is32 with
   | true => 1970 ≤ year ∧ year ≤ 2038
   | false => 1970 ≤ year ∧ year ≤ 3000) ∧
  1 ≤ month ∧ month ≤ 12 ∧ 1 ≤ day ∧ day ≤ 31 ∧
  0 ≤ hour ∧ hour ≤ 23 ∧ 0 ≤ minute ∧ minute ≤ 59 ∧ 0 ≤ second ∧ second ≤ 59 ∧
  0 ≤ millisecond ∧ millisecond ≤ 999 ∧ 0 ≤ microsecond ∧ microsecond ≤ 999 ∧
  0 ≤ nanosecond ∧ nanosecond ≤ 999

instance (is32 : Bool) (year month day hour minute second millisecond microsecond nanosecond : Int) :
    Decidable (validFields is32 year month day hour minute second millisecond microsecond nanosecond) := by
  unfold validFields; cases is32 <;> infer_instance

/-- The POSIX EBUSY error number (Linux value 16). -/
def EBUSY : Int := 16

/-- RWLock::Impl::TryLockRead over the native pthread_rwlock_tryrdlock
result: any result other than 0 or EBUSY throws SystemException; the call
succeeds exactly when the result is 0. -/
def tryLockReadImpl (result : Int) : Except Err Bool :=
  if result ≠ 0 ∧ result ≠ EBUSY then .error (.system "Failed to try lock for read!")
  else .ok (result == 0)

/-- RWLock::Impl::TryLockWrite over the native pthread_rwlock_trywrlock
result, symmetric to tryLockReadImpl. -/
def tryLockWriteImpl (result : Int) : Except Err Bool :=
  if result ≠ 0 ∧ result ≠ EBUSY then .error (.system "Failed to try lock for write!")
  else .ok (result == 0)

/-- The finish timestamp NanoTimestamp() + timespan of the timed acquires.
Modelled from the spec: Timestamp is a 64-bit unsigned nanosecond count and
adding a (signed 64-bit) Timespan is uint64_t arithmetic, i.e. reduction
modulo 2^64. -/
def finishOf (now : Nat) (timespan : Int) : Nat :=
  (((now : Int) + timespan) % (2 ^ 64 : Int)).toNat

/-- The while loop of RWLock::TryLockReadFor / TryLockWriteFor: while the
freshly read clock is below finish, make a try-lock attempt, yielding on
failure; once the clock reaches finish, return false.  clock i is the i-th
NanoTimestamp() reading, tryL i the i-th try-lock result; the returned Nat
counts the Thread::Yield() calls.  Fuel bounds the modelled iterations
(none = still looping). -/
def spinFor (clock : Nat → Nat) (tryL : Nat → Bool) (finish : Nat) :
    Nat → Nat → Nat → Nat → Option (Bool × Nat)
  | 0, _, _, _ => none
  | fuel + 1, ci, ti, yields =>
    if clock ci < finish then
      if tryL ti then some (true, yields)
      else spinFor clock tryL finish fuel (ci + 1) (ti + 1) (yields + 1)
    else some (false, yields)

/-- The retry loop exactly as the spec words it: "loop: if now_monotonic_ns()
has reached or passed the deadline return false, else make a non-blocking
try-lock attempt, returning true if it succeeds and yielding the execution
slice before retrying if it fails". -/
def specLoop (clock : Nat → Nat) (tryL : Nat → Bool) (deadline : Nat) :
    Nat → Nat → Nat → Nat → Option (Bool × Nat)
  | 0, _, _, _ => none
  | fuel + 1, ci, ti, yields =>
    if deadline ≤ clock ci then some (false, yields)
    else if tryL ti then some (true, yields)
    else specLoop clock tryL deadline fuel (ci + 1) (ti + 1) (yields + 1)

/-- RWLock::TryLockReadFor / TryLockWriteFor: compute the finish timestamp
from the first clock reading, make one immediate try-lock attempt, then run
the while loop (clock readings from index 1, try-lock attempts from
index 1). -/
def tryLockAcquireFor (clock : Nat → Nat) (tryL : Nat → Bool) (timespan : Int) (fuel : Nat) :
    Option (Bool × Nat) :=
  if tryL 0 then some (true, 0)
  else spinFor clock tryL (finishOf (clock 0) timespan) fuel 1 1 0

/-- The timed-acquire policy as the spec words it: deadline from the current
monotonic timestamp plus the timeout, one immediate attempt, then the
deadline-first retry loop. -/
def specTimedAcquire (clock : Nat → Nat) (tryL : Nat → Bool) (timeout : Int) (fuel : Nat) :
    Option (Bool × Nat) :=
  if tryL 0 then some (true, 0)
  else specLoop clock tryL (finishOf (clock 0) timeout) fuel 1 1 0

/-- RWLock::TryLockReadFor with its try-lock attempts abstracted as the
oracle tryL (the body is identical to TryLockWriteFor apart from which
native try-lock it invokes). -/
def tryLockReadForModel : (Nat → Nat) → (Nat → Bool) → Int → Nat → Option (Bool × Nat) :=
  tryLockAcquireFor

/-- RWLock::TryLockWriteFor with its try-lock attempts abstracted as the
oracle tryL. -/
def tryLockWriteForModel : (Nat → Nat) → (Nat → Bool) → Int → Nat → Option (Bool × Nat) :=
  tryLockAcquireFor

/-- Identity clock stream used by concrete witnesses. -/
def wClock (i : Nat) : Nat := i

/-- Constant all-failing try-lock stream used by concrete witnesses. -/
def wTryFail (_ : Nat) : Bool := false

/-- Platform decomposition oracle for witnesses that reports the
leap-second value tm_sec = 60. -/
def wTmLeap (_ : Nat) : Tm := ⟨60, 59, 23, 31, 11, 116⟩

/-- Platform decomposition oracle for the decomposition-structure witness. -/
def wPlatTm (_ : Nat) : Option Tm := some ⟨7, 6, 5, 4, 3, 100⟩

/-- Always-failing platform composition call for witnesses. -/
def wPlatFail (_ : Tm) : Int := -1

/-- Constant successful platform composition call for witnesses. -/
def wPlatOk (_ : Tm) : Int := 12

/-- Concrete Calendar Time used by witnesses. -/
def wTime0 : Time := ⟨1970, 1, 1, 0, 0, 0, 0, 0, 0⟩

lemma spinFor_eq_specLoop (clock : Nat → Nat) (tryL : Nat → Bool) (finish : Nat) :
    ∀ fuel ci ti yl, spinFor clock tryL finish fuel ci ti yl =
      specLoop clock tryL finish fuel ci ti yl := by
  intro fuel
  induction fuel with
  | zero => intro ci ti yl; rfl
  | succ n ih =>
    intro ci ti yl
    by_cases hc : clock ci < finish
    · have hc2 : ¬ finish ≤ clock ci := by omega
      by_cases ht : tryL ti
      · simp [spinFor, specLoop, hc, hc2, ht]
      · simp [spinFor, specLoop, hc, hc2, ht, ih]
    · have hc2 : finish ≤ clock ci := by omega
      simp [spinFor, specLoop, hc, hc2]

/-- C2: TryLockReadFor and TryLockWriteFor follow exactly the specified
timed-acquire algorithm: deadline from the current monotonic timestamp plus
the timeout, one immediate non-blocking attempt, then the
deadline-check-first retry loop that yields between failed attempts.  The
equality covers the result and the number of yields for every clock and
try-lock behaviour. -/
theorem tryLockFor_follows_spec (clock : Nat → Nat) (tryL : Nat → Bool) (timeout : Int) (fuel : Nat) :
    tryLockReadForModel clock tryL timeout fuel = specTimedAcquire clock tryL timeout fuel ∧
    tryLockWriteForModel clock tryL timeout fuel = specTimedAcquire clock tryL timeout fuel := by
  have key : tryLockAcquireFor clock tryL timeout fuel = specTimedAcquire clock tryL timeout fuel := by
    unfold tryLockAcquireFor specTimedAcquire
    by_cases h0 : tryL 0
    · rw [if_pos h0, if_pos h0]
    · rw [if_neg h0, if_neg h0, spinFor_eq_specLoop]
  exact ⟨key, key⟩

lemma spinFor_false_reaches (clock : Nat → Nat) (tryL : Nat → Bool) (finish : Nat) :
    ∀ fuel ci ti yl b, spinFor clock tryL finish fuel ci ti yl = some (false, b) →
      ∃ i, ci ≤ i ∧ finish ≤ clock i := by
  intro fuel
  induction fuel with
  | zero => intro ci ti yl b h; simp [spinFor] at h
  | succ n ih =>
    intro ci ti yl b h
    simp only [spinFor] at h
    by_cases hc : clock ci < finish
    · rw [if_pos hc] at h
      by_cases ht : tryL ti
      · rw [if_pos ht] at h; simp at h
      · rw [if_neg ht] at h
        obtain ⟨i, hi, hfin⟩ := ih (ci + 1) (ti + 1) (yl + 1) b h
        exact ⟨i, by omega, hfin⟩
    · exact ⟨ci, Nat.le_refl ci, by omega⟩

lemma acquireFor_false_reaches (clock : Nat → Nat) (tryL : Nat → Bool) (timeout : Int)
    (fuel b : Nat) (h : tryLockAcquireFor clock tryL timeout fuel = some (false, b)) :
    ∃ i, 1 ≤ i ∧ finishOf (clock 0) timeout ≤ clock i := by
  unfold tryLockAcquireFor at h
  by_cases h0 : tryL 0
  · rw [if_pos h0] at h; simp at h
  · rw [if_neg h0] at h
    exact spinFor_false_reaches clock tryL _ fuel 1 1 0 b h

lemma two_pow_64_int : (2 : Int) ^ 64 = 18446744073709551616 := by norm_num

lemma two_pow_64_nat : (2 : Nat) ^ 64 = 18446744073709551616 := by norm_num

lemma finishOf_no_wrap (now : Nat) (timeout : Int) (h0 : 0 ≤ timeout)
    (hlt : now + timeout.toNat < 2 ^ 64) : finishOf now timeout = now + timeout.toNat := by
  unfold finishOf
  rw [two_pow_64_int]
  rw [two_pow_64_nat] at hlt
  omega

/-- C3: whenever a timed acquire returns false, some monotonic clock reading
taken inside the call (at or after the loop entry) is at or past the
computed deadline; in the non-wrapping regime the deadline equals the start
reading plus the timeout, so failure is never reported before a clock
reading at least timeout past the start. -/
theorem tryLockFor_failure_deadline (clock : Nat → Nat) (tryL : Nat → Bool)
    (timeout : Int) (fuel b : Nat) :
    (tryLockWriteForModel clock tryL timeout fuel = some (false, b) →
      ∃ i, 1 ≤ i ∧ finishOf (clock 0) timeout ≤ clock i) ∧
    (tryLockReadForModel clock tryL timeout fuel = some (false, b) →
      ∃ i, 1 ≤ i ∧ finishOf (clock 0) timeout ≤ clock i) ∧
    (0 ≤ timeout → clock 0 + timeout.toNat < 2 ^ 64 →
      tryLockWriteForModel clock tryL timeout fuel = some (false, b) →
      ∃ i, 1 ≤ i ∧ clock 0 + timeout.toNat ≤ clock i) ∧
    (0 ≤ timeout → clock 0 + timeout.toNat < 2 ^ 64 →
      tryLockReadForModel clock tryL timeout fuel = some (false, b) →
      ∃ i, 1 ≤ i ∧ clock 0 + timeout.toNat ≤ clock i) := by
  have elapsed : tryLockAcquireFor clock tryL timeout fuel = some (false, b) →
      0 ≤ timeout → clock 0 + timeout.toNat < 2 ^ 64 →
      ∃ i, 1 ≤ i ∧ clock 0 + timeout.toNat ≤ clock i := by
    intro h hpos hlt
    obtain ⟨i, hi, hfin⟩ := acquireFor_false_reaches clock tryL timeout fuel b h
    rw [finishOf_no_wrap (clock 0) timeout hpos hlt] at hfin
    exact ⟨i, hi, hfin⟩
  exact ⟨acquireFor_false_reaches clock tryL timeout fuel b,
         acquireFor_false_reaches clock tryL timeout fuel b,
         fun hpos hlt h => elapsed h hpos hlt,
         fun hpos hlt h => elapsed h hpos hlt⟩

theorem tryLockFor_failure_deadline_witness :
    (∃ i, 1 ≤ i ∧ finishOf (wClock 0) 5 ≤ wClock i) ∧
    (∃ i, 1 ≤ i ∧ wClock 0 + (5 : Int).toNat ≤ wClock i) :=
  ⟨(tryLockFor_failure_deadline wClock wTryFail 5 10 4).1 (by decide),
   (tryLockFor_failure_deadline wClock wTryFail 5 10 4).2.2.1 (by decide) (by decide) (by decide)⟩

/-- C9: when the computed deadline does not lie after the first monotonic
reading (in particular for a zero timeout), the timed acquire makes exactly
one non-blocking attempt, returns its result, and performs no yield, for
both the read and the write variant. -/
theorem tryLockFor_nonpositive_timeout (clock : Nat → Nat) (tryL : Nat → Bool)
    (timeout : Int) (fuel : Nat)
    (hmono : ∀ i j, i ≤ j → clock i ≤ clock j) (htimeout : timeout ≤ 0)
    (hdl : finishOf (clock 0) timeout ≤ clock 0) (hfuel : 1 ≤ fuel) :
    tryLockReadForModel clock tryL timeout fuel = some (tryL 0, 0) ∧
    tryLockWriteForModel clock tryL timeout fuel = some (tryL 0, 0) := by
  have h01 : clock 0 ≤ clock 1 := hmono 0 1 (by omega)
  have key : tryLockAcquireFor clock tryL timeout fuel = some (tryL 0, 0) := by
    unfold tryLockAcquireFor
    by_cases h0 : tryL 0
    · rw [if_pos h0, h0]
    · rw [if_neg h0]
      obtain ⟨k, rfl⟩ : ∃ k, fuel = k + 1 := ⟨fuel - 1, by omega⟩
      have h0f : tryL 0 = false := by simpa using h0
      simp only [spinFor]
      rw [if_neg (by omega), h0f]
  exact ⟨key, key⟩

theorem tryLockFor_nonpositive_timeout_witness :
    tryLockReadForModel wClock wTryFail 0 3 = some (wTryFail 0, 0) ∧
    tryLockWriteForModel wClock wTryFail 0 3 = some (wTryFail 0, 0) :=
  tryLockFor_nonpositive_timeout wClock wTryFail 0 3 (fun _ _ h => h)
    (by decide) (by decide) (by decide)

/-- C5: TryLockRead returns true exactly on native result 0, returns false
(not an error) on EBUSY, and throws SystemException on any other native
result; TryLockWrite is symmetric. -/
theorem tryLock_native_result_mapping (r : Int) :
    (tryLockReadImpl r = .ok true ↔ r = 0) ∧
    tryLockReadImpl EBUSY = .ok false ∧
    (r ≠ 0 → r ≠ EBUSY → tryLockReadImpl r = .error (.system "Failed to try lock for read!")) ∧
    (tryLockWriteImpl r = .ok true ↔ r = 0) ∧
    tryLockWriteImpl EBUSY = .ok false ∧
    (r ≠ 0 → r ≠ EBUSY → tryLockWriteImpl r = .error (.system "Failed to try lock for write!")) := by
  refine ⟨?_, by decide, ?_, ?_, by decide, ?_⟩
  · unfold tryLockReadImpl
    split_ifs with h
    · simp [h.1]
    · simp
  · intro h1 h2
    unfold tryLockReadImpl
    rw [if_pos ⟨h1, h2⟩]
  · unfold tryLockWriteImpl
    split_ifs with h
    · simp [h.1]
    · simp
  · intro h1 h2
    unfold tryLockWriteImpl
    rw [if_pos ⟨h1, h2⟩]

theorem tryLock_native_result_mapping_witness :
    tryLockReadImpl 22 = .error (.system "Failed to try lock for read!") ∧
    tryLockWriteImpl 22 = .error (.system "Failed to try lock for write!") :=
  ⟨(tryLock_native_result_mapping 22).2.2.1 (by decide) (by decide),
   (tryLock_native_result_mapping 22).2.2.2.2.2 (by decide) (by decide)⟩

/-- C4: the explicit-field constructor validates every field against its
documented range in source order, throwing ArgumentException whose message
names the field and its valid range, before any platform conversion (the
constructor performs none; composition is a separate operation); the year
bound is 1970..2038 when the epoch counter is 32-bit and 1970..3000
otherwise, so month 13 and year 1969 are rejected while year 2038 is
accepted on a 64-bit-epoch target. -/
theorem time_create_validates (is32 : Bool)
    (year month day hour minute second millisecond microsecond nanosecond : Int) :
    (validFields is32 year month day hour minute second millisecond microsecond nanosecond →
      Time.create is32 year month day hour minute second millisecond microsecond nanosecond =
        .ok ⟨year.toNat, month.toNat, day.toNat, hour.toNat, minute.toNat, second.toNat,
             millisecond.toNat, microsecond.toNat, nanosecond.toNat⟩) ∧
    (¬ validFields is32 year month day hour minute second millisecond microsecond nanosecond →
      ∃ msg, Time.create is32 year month day hour minute second millisecond microsecond nanosecond =
        .error (.argument msg)) ∧
    Time.create false 2016 13 1 0 0 0 0 0 0 =
      .error (.argument "Month value is limited in range from 1 to 12!") ∧
    Time.create false 1969 1 1 0 0 0 0 0 0 =
      .error (.argument "Year value is limited in range from 1970 to 3000!") ∧
    Time.create true 1969 1 1 0 0 0 0 0 0 =
      .error (.argument "Year value is limited in range from 1970 to 2038!") ∧
    Time.create false 2038 1 19 3 14 7 0 0 0 = .ok ⟨2038, 1, 19, 3, 14, 7, 0, 0, 0⟩ := by
  refine ⟨?_, ?_, by decide, by decide, by decide, by decide⟩
  · intro h
    cases is32
    · simp only [validFields] at h
      simp only [Time.create, Time.createBody]
      rw [if_neg (show ¬ (year < 1970 ∨ 3000 < year) by omega)]
      rw [if_neg (show ¬ (month < 1 ∨ 12 < month) by omega)]
      rw [if_neg (show ¬ (day < 1 ∨ 31 < day) by omega)]
      rw [if_neg (show ¬ (hour < 0 ∨ 23 < hour) by omega)]
      rw [if_neg (show ¬ (minute < 0 ∨ 59 < minute) by omega)]
      rw [if_neg (show ¬ (second < 0 ∨ 59 < second) by omega)]
      rw [if_neg (show ¬ (millisecond < 0 ∨ 999 < millisecond) by omega)]
      rw [if_neg (show ¬ (microsecond < 0 ∨ 999 < microsecond) by omega)]
      rw [if_neg (show ¬ (nanosecond < 0 ∨ 999 < nanosecond) by omega)]
    · simp only [validFields] at h
      simp only [Time.create, Time.createBody]
      rw [if_neg (show ¬ (year < 1970 ∨ 2038 < year) by omega)]
      rw [if_neg (show ¬ (month < 1 ∨ 12 < month) by omega)]
      rw [if_neg (show ¬ (day < 1 ∨ 31 < day) by omega)]
      rw [if_neg (show ¬ (hour < 0 ∨ 23 < hour) by omega)]
      rw [if_neg (show ¬ (minute < 0 ∨ 59 < minute) by omega)]
      rw [if_neg (show ¬ (second < 0 ∨ 59 < second) by omega)]
      rw [if_neg (show ¬ (millisecond < 0 ∨ 999 < millisecond) by omega)]
      rw [if_neg (show ¬ (microsecond < 0 ∨ 999 < microsecond) by omega)]
      rw [if_neg (show ¬ (nanosecond < 0 ∨ 999 < nanosecond) by omega)]
  · intro h
    cases is32
    · simp only [validFields] at h
      simp only [Time.create, Time.createBody]
      split_ifs with h1 h2 h3 h4 h5 h6 h7 h8 h9
      any_goals exact ⟨_, rfl⟩
      exact (h (by omega)).elim
    · simp only [validFields] at h
      simp only [Time.create, Time.createBody]
      split_ifs with h1 h2 h3 h4 h5 h6 h7 h8 h9
      any_goals exact ⟨_, rfl⟩
      exact (h (by omega)).elim

theorem time_create_validates_witness :
    Time.create false 1999 12 31 23 59 59 999 999 999 =
      .ok ⟨1999, 12, 31, 23, 59, 59, 999, 999, 999⟩ :=
  (time_create_validates false 1999 12 31 23 59 59 999 999 999).1 (by decide)

lemma feb_bounds (y : Nat) : 28 ≤ feb y ∧ feb y ≤ 29 := by
  unfold feb; split_ifs <;> omega

lemma daysInYear_bounds (y : Nat) : 365 ≤ daysInYear y ∧ daysInYear y ≤ 366 := by
  unfold daysInYear
  have := feb_bounds y
  omega

lemma daysInMonth_le_31 (y m : Nat) : daysInMonth y m ≤ 31 := by
  have := feb_bounds y
  unfold daysInMonth
  split <;> omega

lemma cumDays_ub (y m : Nat) : cumDays y m ≤ 306 + feb y := by
  have := feb_bounds y
  unfold cumDays
  split <;> omega

lemma monthDay_inv (y m d : Nat) (hm1 : 1 ≤ m) (hm2 : m ≤ 12) (hd1 : 1 ≤ d)
    (hd2 : d ≤ daysInMonth y m) :
    monthDayFromDoy y (cumDays y m + (d - 1)) = (m, d) ∧
    cumDays y m + (d - 1) < daysInYear y := by
  have hf := feb_bounds y
  interval_cases m <;>
    simp only [daysInMonth] at hd2 <;>
    simp only [monthDayFromDoy, cumDays, daysInYear]
  · rw [if_pos (show 0 + (d - 1) < 31 by omega)]
    exact ⟨by simp only [Prod.mk.injEq, true_and]; omega, by omega⟩
  · rw [if_neg (show ¬ (31 + (d - 1) < 31) by omega),
        if_pos (show 31 + (d - 1) < 31 + feb y by omega)]
    exact ⟨by simp only [Prod.mk.injEq, true_and]; omega, by omega⟩
  · rw [if_neg (show ¬ (31 + feb y + (d - 1) < 31) by omega),
        if_neg (show ¬ (31 + feb y + (d - 1) < 31 + feb y) by omega),
        if_pos (show 31 + feb y + (d - 1) < 62 + feb y by omega)]
    exact ⟨by simp only [Prod.mk.injEq, true_and]; omega, by omega⟩
  · rw [if_neg (show ¬ (62 + feb y + (d - 1) < 31) by omega),
        if_neg (show ¬ (62 + feb y + (d - 1) < 31 + feb y) by omega),
        if_neg (show ¬ (62 + feb y + (d - 1) < 62 + feb y) by omega),
        if_pos (show 62 + feb y + (d - 1) < 92 + feb y by omega)]
    exact ⟨by simp only [Prod.mk.injEq, true_and]; omega, by omega⟩
  · rw [if_neg (show ¬ (92 + feb y + (d - 1) < 31) by omega),
        if_neg (show ¬ (92 + feb y + (d - 1) < 31 + feb y) by omega),
        if_neg (show ¬ (92 + feb y + (d - 1) < 62 + feb y) by omega),
        if_neg (show ¬ (92 + feb y + (d - 1) < 92 + feb y) by omega),
        if_pos (show 92 + feb y + (d - 1) < 123 + feb y by omega)]
    exact ⟨by simp only [Prod.mk.injEq, true_and]; omega, by omega⟩
  · rw [if_neg (show ¬ (123 + feb y + (d - 1) < 31) by omega),
        if_neg (show ¬ (123 + feb y + (d - 1) < 31 + feb y) by omega),
        if_neg (show ¬ (123 + feb y + (d - 1) < 62 + feb y) by omega),
        if_neg (show ¬ (123 + feb y + (d - 1) < 92 + feb y) by omega),
        if_neg (show ¬ (123 + feb y + (d - 1) < 123 + feb y) by omega),
        if_pos (show 123 + feb y + (d - 1) < 153 + feb y by omega)]
    exact ⟨by simp only [Prod.mk.injEq, true_and]; omega, by omega⟩
  · rw [if_neg (show ¬ (153 + feb y + (d - 1) < 31) by omega),
        if_neg (show ¬ (153 + feb y + (d - 1) < 31 + feb y) by omega),
        if_neg (show ¬ (153 + feb y + (d - 1) < 62 + feb y) by omega),
        if_neg (show ¬ (153 + feb y + (d - 1) < 92 + feb y) by omega),
        if_neg (show ¬ (153 + feb y + (d - 1) < 123 + feb y) by omega),
        if_neg (show ¬ (153 + feb y + (d - 1) < 153 + feb y) by omega),
        if_pos (show 153 + feb y + (d - 1) < 184 + feb y by omega)]
    exact ⟨by simp only [Prod.mk.injEq, true_and]; omega, by omega⟩
  · rw [if_neg (show ¬ (184 + feb y + (d - 1) < 31) by omega),
        if_neg (show ¬ (184 + feb y + (d - 1) < 31 + feb y) by omega),
        if_neg (show ¬ (184 + feb y + (d - 1) < 62 + feb y) by omega),
        if_neg (show ¬ (184 + feb y + (d - 1) < 92 + feb y) by omega),
        if_neg (show ¬ (184 + feb y + (d - 1) < 123 + feb y) by omega),
        if_neg (show ¬ (184 + feb y + (d - 1) < 153 + feb y) by omega),
        if_neg (show ¬ (184 + feb y + (d - 1) < 184 + feb y) by omega),
        if_pos (show 184 + feb y + (d - 1) < 215 + feb y by omega)]
    exact ⟨by simp only [Prod.mk.injEq, true_and]; omega, by omega⟩
  · rw [if_neg (show ¬ (215 + feb y + (d - 1) < 31) by omega),
        if_neg (show ¬ (215 + feb y + (d - 1) < 31 + feb y) by omega),
        if_neg (show ¬ (215 + feb y + (d - 1) < 62 + feb y) by omega),
        if_neg (show ¬ (215 + feb y + (d - 1) < 92 + feb y) by omega),
        if_neg (show ¬ (215 + feb y + (d - 1) < 123 + feb y) by omega),
        if_neg (show ¬ (215 + feb y + (d - 1) < 153 + feb y) by omega),
        if_neg (show ¬ (215 + feb y + (d - 1) < 184 + feb y) by omega),
        if_neg (show ¬ (215 + feb y + (d - 1) < 215 + feb y) by omega),
        if_pos (show 215 + feb y + (d - 1) < 245 + feb y by omega)]
    exact ⟨by simp only [Prod.mk.injEq, true_and]; omega, by omega⟩
  · rw [if_neg (show ¬ (245 + feb y + (d - 1) < 31) by omega),
        if_neg (show ¬ (245 + feb y + (d - 1) < 31 + feb y) by omega),
        if_neg (show ¬ (245 + feb y + (d - 1) < 62 + feb y) by omega),
        if_neg (show ¬ (245 + feb y + (d - 1) < 92 + feb y) by omega),
        if_neg (show ¬ (245 + feb y + (d - 1) < 123 + feb y) by omega),
        if_neg (show ¬ (245 + feb y + (d - 1) < 153 + feb y) by omega),
        if_neg (show ¬ (245 + feb y + (d - 1) < 184 + feb y) by omega),
        if_neg (show ¬ (245 + feb y + (d - 1) < 215 + feb y) by omega),
        if_neg (show ¬ (245 + feb y + (d - 1) < 245 + feb y) by omega),
        if_pos (show 245 + feb y + (d - 1) < 276 + feb y by omega)]
    exact ⟨by simp only [Prod.mk.injEq, true_and]; omega, by omega⟩
  · rw [if_neg (show ¬ (276 + feb y + (d - 1) < 31) by omega),
        if_neg (show ¬ (276 + feb y + (d - 1) < 31 + feb y) by omega),
        if_neg (show ¬ (276 + feb y + (d - 1) < 62 + feb y) by omega),
        if_neg (show ¬ (276 + feb y + (d - 1) < 92 + feb y) by omega),
        if_neg (show ¬ (276 + feb y + (d - 1) < 123 + feb y) by omega),
        if_neg (show ¬ (276 + feb y + (d - 1) < 153 + feb y) by omega),
        if_neg (show ¬ (276 + feb y + (d - 1) < 184 + feb y) by omega),
        if_neg (show ¬ (276 + feb y + (d - 1) < 215 + feb y) by omega),
        if_neg (show ¬ (276 + feb y + (d - 1) < 245 + feb y) by omega),
        if_neg (show ¬ (276 + feb y + (d - 1) < 276 + feb y) by omega),
        if_pos (show 276 + feb y + (d - 1) < 306 + feb y by omega)]
    exact ⟨by simp only [Prod.mk.injEq, true_and]; omega, by omega⟩
  · rw [if_neg (show ¬ (306 + feb y + (d - 1) < 31) by omega),
        if_neg (show ¬ (306 + feb y + (d - 1) < 31 + feb y) by omega),
        if_neg (show ¬ (306 + feb y + (d - 1) < 62 + feb y) by omega),
        if_neg (show ¬ (306 + feb y + (d - 1) < 92 + feb y) by omega),
        if_neg (show ¬ (306 + feb y + (d - 1) < 123 + feb y) by omega),
        if_neg (show ¬ (306 + feb y + (d - 1) < 153 + feb y) by omega),
        if_neg (show ¬ (306 + feb y + (d - 1) < 184 + feb y) by omega),
        if_neg (show ¬ (306 + feb y + (d - 1) < 215 + feb y) by omega),
        if_neg (show ¬ (306 + feb y + (d - 1) < 245 + feb y) by omega),
        if_neg (show ¬ (306 + feb y + (d - 1) < 276 + feb y) by omega),
        if_neg (show ¬ (306 + feb y + (d - 1) < 306 + feb y) by omega)]
    exact ⟨by simp only [Prod.mk.injEq, true_and]; omega, by omega⟩

lemma monthDayFromDoy_ranges (y doy : Nat) (h : doy < daysInYear y) :
    ∃ m d, monthDayFromDoy y doy = (m, d) ∧
      1 ≤ m ∧ m ≤ 12 ∧ 1 ≤ d ∧ d ≤ daysInMonth y m := by
  have hf := feb_bounds y
  unfold daysInYear at h
  simp only [monthDayFromDoy]
  by_cases h1 : doy < 31
  · rw [if_pos h1]
    exact ⟨1, doy + 1, rfl, by omega, by omega, by omega, by simp only [daysInMonth]; omega⟩
  rw [if_neg h1]
  by_cases h2 : doy < 31 + feb y
  · rw [if_pos h2]
    exact ⟨2, doy - 31 + 1, rfl, by omega, by omega, by omega, by simp only [daysInMonth]; omega⟩
  rw [if_neg h2]
  by_cases h3 : doy < 62 + feb y
  · rw [if_pos h3]
    exact ⟨3, doy - (31 + feb y) + 1, rfl, by omega, by omega, by omega,
           by simp only [daysInMonth]; omega⟩
  rw [if_neg h3]
  by_cases h4 : doy < 92 + feb y
  · rw [if_pos h4]
    exact ⟨4, doy - (62 + feb y) + 1, rfl, by omega, by omega, by omega,
           by simp only [daysInMonth]; omega⟩
  rw [if_neg h4]
  by_cases h5 : doy < 123 + feb y
  · rw [if_pos h5]
    exact ⟨5, doy - (92 + feb y) + 1, rfl, by omega, by omega, by omega,
           by simp only [daysInMonth]; omega⟩
  rw [if_neg h5]
  by_cases h6 : doy < 153 + feb y
  · rw [if_pos h6]
    exact ⟨6, doy - (123 + feb y) + 1, rfl, by omega, by omega, by omega,
           by simp only [daysInMonth]; omega⟩
  rw [if_neg h6]
  by_cases h7 : doy < 184 + feb y
  · rw [if_pos h7]
    exact ⟨7, doy - (153 + feb y) + 1, rfl, by omega, by omega, by omega,
           by simp only [daysInMonth]; omega⟩
  rw [if_neg h7]
  by_cases h8 : doy < 215 + feb y
  · rw [if_pos h8]
    exact ⟨8, doy - (184 + feb y) + 1, rfl, by omega, by omega, by omega,
           by simp only [daysInMonth]; omega⟩
  rw [if_neg h8]
  by_cases h9 : doy < 245 + feb y
  · rw [if_pos h9]
    exact ⟨9, doy - (215 + feb y) + 1, rfl, by omega, by omega, by omega,
           by simp only [daysInMonth]; omega⟩
  rw [if_neg h9]
  by_cases h10 : doy < 276 + feb y
  · rw [if_pos h10]
    exact ⟨10, doy - (245 + feb y) + 1, rfl, by omega, by omega, by omega,
           by simp only [daysInMonth]; omega⟩
  rw [if_neg h10]
  by_cases h11 : doy < 306 + feb y
  · rw [if_pos h11]
    exact ⟨11, doy - (276 + feb y) + 1, rfl, by omega, by omega, by omega,
           by simp only [daysInMonth]; omega⟩
  rw [if_neg h11]
  exact ⟨12, doy - (306 + feb y) + 1, rfl, by omega, by omega, by omega,
         by simp only [daysInMonth]; omega⟩

lemma yearsDays_1970 : yearsDays 1970 = 0 := rfl

lemma civilYearAux_zero (y z : Nat) : civilYearAux 0 y z = (y, z) := rfl

lemma civilYearAux_succ (fuel y z : Nat) :
    civilYearAux (fuel + 1) y z =
      if z < daysInYear y then (y, z) else civilYearAux fuel (y + 1) (z - daysInYear y) := rfl

lemma yearsDays_succ (y : Nat) (h : 1970 ≤ y) :
    yearsDays (y + 1) = yearsDays y + daysInYear y := by
  simp only [yearsDays]
  rw [if_neg (by omega)]

lemma yearsDays_lb (y : Nat) : 365 * (y - 1970) ≤ yearsDays y := by
  induction y with
  | zero => simp [yearsDays]
  | succ n ih =>
    by_cases h : n + 1 ≤ 1970
    · simp only [yearsDays]; rw [if_pos h]; omega
    · simp only [yearsDays]; rw [if_neg h]
      have := (daysInYear_bounds n).1
      omega

lemma yearsDays_ub (y : Nat) : yearsDays y ≤ 366 * (y - 1970) := by
  induction y with
  | zero => simp [yearsDays]
  | succ n ih =>
    by_cases h : n + 1 ≤ 1970
    · simp only [yearsDays]; rw [if_pos h]; omega
    · simp only [yearsDays]; rw [if_neg h]
      have := (daysInYear_bounds n).2
      omega

lemma civilYearAux_shift (y : Nat) (hy : 1970 ≤ y) :
    ∀ t fuel, yearsDays y + t + 1 ≤ fuel →
      civilYearAux fuel 1970 (yearsDays y + t) = civilYearAux (fuel - (y - 1970)) y t := by
  induction y, hy using Nat.le_induction with
  | base =>
    intro t fuel hf
    rw [yearsDays_1970]
    simp
  | succ y hy ih =>
    intro t fuel hf
    rw [yearsDays_succ y hy] at hf ⊢
    have h2 : yearsDays y + (daysInYear y + t) + 1 ≤ fuel := by omega
    have step := ih (daysInYear y + t) fuel h2
    rw [show yearsDays y + daysInYear y + t = yearsDays y + (daysInYear y + t) from by omega,
        step]
    have hge := yearsDays_lb y
    have hdy := (daysInYear_bounds y).1
    obtain ⟨k, hk⟩ : ∃ k, fuel - (y - 1970) = k + 1 := ⟨fuel - (y - 1970) - 1, by omega⟩
    rw [hk, civilYearAux_succ]
    rw [if_neg (show ¬ (daysInYear y + t < daysInYear y) by omega),
        show daysInYear y + t - daysInYear y = t from by omega]
    have hkk : k = fuel - (y + 1 - 1970) := by omega
    rw [hkk]

lemma civilYearAux_base (y t fuel : Nat) (ht : t < daysInYear y) (hf : 1 ≤ fuel) :
    civilYearAux fuel y t = (y, t) := by
  obtain ⟨k, rfl⟩ : ∃ k, fuel = k + 1 := ⟨fuel - 1, by omega⟩
  rw [civilYearAux_succ, if_pos ht]

lemma civilFromDays_inv (y t : Nat) (hy : 1970 ≤ y) (ht : t < daysInYear y) :
    civilFromDays (yearsDays y + t) = (y, t) := by
  unfold civilFromDays
  rw [civilYearAux_shift y hy t (yearsDays y + t + 1) (by omega)]
  have := yearsDays_lb y
  exact civilYearAux_base y t _ ht (by omega)

lemma civilYearAux_fst_ge : ∀ fuel y z, y ≤ (civilYearAux fuel y z).1 := by
  intro fuel
  induction fuel with
  | zero => intro y z; exact Nat.le_refl y
  | succ n ih =>
    intro y z
    rw [civilYearAux_succ]
    split_ifs with h
    · exact Nat.le_refl y
    · exact Nat.le_trans (by omega) (ih (y + 1) (z - daysInYear y))

lemma civilYearAux_fst_le : ∀ fuel y z, (civilYearAux fuel y z).1 ≤ y + z / 365 := by
  intro fuel
  induction fuel with
  | zero => intro y z; exact Nat.le_add_right y (z / 365)
  | succ n ih =>
    intro y z
    rw [civilYearAux_succ]
    split_ifs with h
    · exact Nat.le_add_right y (z / 365)
    · have h365 := (daysInYear_bounds y).1
      have := ih (y + 1) (z - daysInYear y)
      omega

lemma civilFromDays_def (z : Nat) : civilFromDays z = civilYearAux (z + 1) 1970 z := rfl

lemma civilYearAux_snd_lt : ∀ fuel y z, z < fuel →
    (civilYearAux fuel y z).2 < daysInYear (civilYearAux fuel y z).1 := by
  intro fuel
  induction fuel with
  | zero => intro y z h; omega
  | succ n ih =>
    intro y z h
    rw [civilYearAux_succ]
    split_ifs with hc
    · simpa using hc
    · have h365 := (daysInYear_bounds y).1
      exact ih (y + 1) (z - daysInYear y) (by omega)

lemma two_pow_65_nat : (2 : Nat) ^ 65 = 36893488147419103232 := by norm_num

lemma daysFromCivil_le (y m d : Nat) (hd : d ≤ 31) :
    daysFromCivil y m d ≤ 366 * (y - 1970) + 365 := by
  unfold daysFromCivil
  have h1 := yearsDays_ub y
  have h2 := cumDays_ub y m
  have hf := feb_bounds y
  omega

lemma timegmSecs_toTm (t : Time) (hy : 1970 ≤ t.year) (hm : 1 ≤ t.month) :
    timegmSecs t.toTm = daysFromCivil t.year t.month t.day * 86400 +
      t.hour * 3600 + t.minute * 60 + t.second := by
  simp only [timegmSecs, Time.toTm]
  rw [show t.year - 1900 + 1900 = t.year from by omega,
      show t.month - 1 + 1 = t.month from by omega]

lemma epochNs_formula (t : Time) (hy : 1970 ≤ t.year) (hm : 1 ≤ t.month) :
    epochNs t = (daysFromCivil t.year t.month t.day * 86400 + t.hour * 3600 +
      t.minute * 60 + t.second) * 1000000000 + t.millisecond * 1000000 +
      t.microsecond * 1000 + t.nanosecond := by
  unfold epochNs
  rw [timegmSecs_toTm t hy hm]

lemma epochNs_lt (t : Time) (hy1 : 1970 ≤ t.year) (hy2 : t.year ≤ 2500) (hm1 : 1 ≤ t.month)
    (hd : t.day ≤ 31) (hh : t.hour ≤ 23) (hmi : t.minute ≤ 59) (hs : t.second ≤ 59)
    (hms : t.millisecond ≤ 999) (hus : t.microsecond ≤ 999) (hns : t.nanosecond ≤ 999) :
    epochNs t < 2 ^ 64 := by
  rw [epochNs_formula t hy1 hm1, two_pow_64_nat]
  have hD := daysFromCivil_le t.year t.month t.day hd
  omega

lemma epochNs_ub (t : Time) (hy1 : 1970 ≤ t.year) (hy2 : t.year ≤ 3000) (hm1 : 1 ≤ t.month)
    (hd : t.day ≤ 31) (hh : t.hour ≤ 23) (hmi : t.minute ≤ 59) (hs : t.second ≤ 59)
    (hms : t.millisecond ≤ 999) (hus : t.microsecond ≤ 999) (hns : t.nanosecond ≤ 999) :
    epochNs t < 2 ^ 65 := by
  rw [epochNs_formula t hy1 hm1, two_pow_65_nat]
  have hD := daysFromCivil_le t.year t.month t.day hd
  omega

lemma utcstamp_eq (t : Time) : t.utcstamp = .ok (epochNs t % 2 ^ 64) := by
  simp only [Time.utcstamp, utcstampGen, timegmModel]
  rw [if_neg (show ¬ (Int.ofNat (timegmSecs t.toTm) = -1) by
        intro hcon
        have hnn : (0 : Int) ≤ Int.ofNat (timegmSecs t.toTm) := Int.ofNat_nonneg _
        omega)]
  simp only [Except.ok.injEq]
  have hcast : Int.ofNat (timegmSecs t.toTm) * 1000000000 +
      (t.millisecond : Int) * 1000000 + (t.microsecond : Int) * 1000 + (t.nanosecond : Int) =
      ((timegmSecs t.toTm * 1000000000 + t.millisecond * 1000000 + t.microsecond * 1000 +
        t.nanosecond : Nat) : Int) := by
    rw [show Int.ofNat (timegmSecs t.toTm) = ((timegmSecs t.toTm : Nat) : Int) from rfl]
    push_cast
    ring
  rw [hcast]
  unfold epochNs
  rw [two_pow_64_int, two_pow_64_nat]
  omega

lemma gmtime_timegm (y m d h mi s : Nat) (hy : 1970 ≤ y) (hm1 : 1 ≤ m) (hm2 : m ≤ 12)
    (hd1 : 1 ≤ d) (hd2 : d ≤ daysInMonth y m) (hh : h ≤ 23) (hmi : mi ≤ 59) (hs : s ≤ 59) :
    gmtimeModel (daysFromCivil y m d * 86400 + h * 3600 + mi * 60 + s) =
      Tm.mk s mi h d (m - 1) (y - 1900) := by
  obtain ⟨hmd, hdoy⟩ := monthDay_inv y m d hm1 hm2 hd1 hd2
  have hrem : h * 3600 + mi * 60 + s < 86400 := by omega
  have hdiv : (daysFromCivil y m d * 86400 + h * 3600 + mi * 60 + s) / 86400 =
      daysFromCivil y m d := by
    have hX : ∀ X : Nat, (X * 86400 + h * 3600 + mi * 60 + s) / 86400 = X := by
      intro X; omega
    exact hX _
  have hmod : (daysFromCivil y m d * 86400 + h * 3600 + mi * 60 + s) % 86400 =
      h * 3600 + mi * 60 + s := by
    have hX : ∀ X : Nat, (X * 86400 + h * 3600 + mi * 60 + s) % 86400 =
        h * 3600 + mi * 60 + s := by
      intro X; omega
    exact hX _
  have hcivil : civilFromDays (daysFromCivil y m d) = (y, cumDays y m + (d - 1)) := by
    rw [show daysFromCivil y m d = yearsDays y + (cumDays y m + (d - 1)) from by
          unfold daysFromCivil; omega]
    exact civilFromDays_inv y (cumDays y m + (d - 1)) hy hdoy
  simp only [gmtimeModel]
  rw [hdiv, hmod, hcivil]
  rw [show ((y, cumDays y m + (d - 1)) : Nat × Nat).1 = y from rfl,
      show ((y, cumDays y m + (d - 1)) : Nat × Nat).2 = cumDays y m + (d - 1) from rfl,
      hmd,
      show ((m, d) : Nat × Nat).1 = m from rfl,
      show ((m, d) : Nat × Nat).2 = d from rfl]
  simp only [Tm.mk.injEq, and_true, true_and]
  omega

lemma decompose_compose (y m d h mi s ms us ns : Nat) (hy : 1970 ≤ y)
    (hm1 : 1 ≤ m) (hm2 : m ≤ 12) (hd1 : 1 ≤ d) (hd2 : d ≤ daysInMonth y m)
    (hh : h ≤ 23) (hmi : mi ≤ 59) (hs : s ≤ 59)
    (hms : ms ≤ 999) (hus : us ≤ 999) (hns : ns ≤ 999) :
    decomposeTime ((daysFromCivil y m d * 86400 + h * 3600 + mi * 60 + s) * 1000000000 +
        ms * 1000000 + us * 1000 + ns) =
      Time.mk y m d h mi s ms us ns := by
  have key : ∀ S : Nat,
      (S * 1000000000 + ms * 1000000 + us * 1000 + ns) / 1000000000 = S ∧
      (S * 1000000000 + ms * 1000000 + us * 1000 + ns) / 1000000 % 1000 = ms ∧
      (S * 1000000000 + ms * 1000000 + us * 1000 + ns) / 1000 % 1000 = us ∧
      (S * 1000000000 + ms * 1000000 + us * 1000 + ns) % 1000 = ns := by
    intro S; refine ⟨by omega, by omega, by omega, by omega⟩
  obtain ⟨h9, hms9, hus9, hns9⟩ := key (daysFromCivil y m d * 86400 + h * 3600 + mi * 60 + s)
  simp only [decomposeTime, decomposeWith]
  rw [h9, hms9, hus9, hns9, gmtime_timegm y m d h mi s hy hm1 hm2 hd1 hd2 hh hmi hs]
  rw [show (Tm.mk s mi h d (m - 1) (y - 1900)).year = y - 1900 from rfl,
      show (Tm.mk s mi h d (m - 1) (y - 1900)).mon = m - 1 from rfl,
      show (Tm.mk s mi h d (m - 1) (y - 1900)).mday = d from rfl,
      show (Tm.mk s mi h d (m - 1) (y - 1900)).hour = h from rfl,
      show (Tm.mk s mi h d (m - 1) (y - 1900)).min = mi from rfl,
      show (Tm.mk s mi h d (m - 1) (y - 1900)).sec = s from rfl]
  simp only [Time.mk.injEq, and_true, true_and]
  omega

/-- C1 (amended): composing a Calendar Time whose fields are in the
documented ranges, which denotes an existing Gregorian date (day at most the
length of the month), and whose year is at most 2500 (so that the epoch
nanosecond count fits in 64 bits), and then decomposing the resulting
Timestamp, reproduces all nine original fields exactly. -/
theorem utc_roundtrip_amended (t : Time)
    (hy1 : 1970 ≤ t.year) (hy2 : t.year ≤ 2500) (hm1 : 1 ≤ t.month) (hm2 : t.month ≤ 12)
    (hd1 : 1 ≤ t.day) (hd2 : t.day ≤ daysInMonth t.year t.month) (hh : t.hour ≤ 23)
    (hmi : t.minute ≤ 59) (hs : t.second ≤ 59) (hms : t.millisecond ≤ 999)
    (hus : t.microsecond ≤ 999) (hns : t.nanosecond ≤ 999) :
    t.utcstamp.map decomposeTime = .ok t := by
  rw [utcstamp_eq t]
  have hd31 : t.day ≤ 31 := Nat.le_trans hd2 (daysInMonth_le_31 t.year t.month)
  have hlt : epochNs t < 2 ^ 64 := epochNs_lt t hy1 hy2 hm1 hd31 hh hmi hs hms hus hns
  simp only [Except.map]
  rw [Nat.mod_eq_of_lt hlt, epochNs_formula t hy1 hm1,
      decompose_compose t.year t.month t.day t.hour t.minute t.second t.millisecond
        t.microsecond t.nanosecond hy1 hm1 hm2 hd1 hd2 hh hmi hs hms hus hns]

theorem utc_roundtrip_witness :
    (Time.utcstamp ⟨2016, 7, 12, 0, 0, 0, 0, 0, 0⟩).map decomposeTime =
      .ok ⟨2016, 7, 12, 0, 0, 0, 0, 0, 0⟩ :=
  utc_roundtrip_amended ⟨2016, 7, 12, 0, 0, 0, 0, 0, 0⟩ (by decide) (by decide) (by decide)
    (by decide) (by decide) (by decide) (by decide) (by decide) (by decide) (by decide)
    (by decide) (by decide)

/-- C1 counterexample: the field tuple 2016-02-30 00:00:00.000000000 lies
within every documented range of section 3 (day 30 is within 1..31) and is
accepted by the validating constructor, but the platform composition call
normalizes it to 2016-03-01, so decomposing the composed Timestamp does not
reproduce the original month and day fields. -/
theorem utc_roundtrip_cex :
    Time.create false 2016 2 30 0 0 0 0 0 0 = .ok ⟨2016, 2, 30, 0, 0, 0, 0, 0, 0⟩ ∧
    Time.utcstamp ⟨2016, 2, 30, 0, 0, 0, 0, 0, 0⟩ = .ok 1456790400000000000 ∧
    decomposeTime 1456790400000000000 = ⟨2016, 3, 1, 0, 0, 0, 0, 0, 0⟩ ∧
    (⟨2016, 3, 1, 0, 0, 0, 0, 0, 0⟩ : Time) ≠ ⟨2016, 2, 30, 0, 0, 0, 0, 0, 0⟩ := by
  refine ⟨by decide, by decide, by decide, by decide⟩

/-- C6 (amended): no overflow detection exists.  Timestamp arithmetic wraps
modulo 2^64 silently: composition of a valid Calendar Time whose true epoch
nanosecond count is at least 2^64 still returns a success carrying the
wrapped value, and the deadline computation of the timed lock acquires wraps
the same way instead of failing. -/
theorem utc_arith_wraps (t : Time) (now : Nat) (d : Int)
    (hy1 : 1970 ≤ t.year) (hy2 : t.year ≤ 3000) (hm1 : 1 ≤ t.month) (hm2 : t.month ≤ 12)
    (hd31 : t.day ≤ 31) (hh : t.hour ≤ 23) (hmi : t.minute ≤ 59) (hs : t.second ≤ 59)
    (hms : t.millisecond ≤ 999) (hus : t.microsecond ≤ 999) (hns : t.nanosecond ≤ 999)
    (hbig : 2 ^ 64 ≤ epochNs t)
    (hpos : 0 ≤ d) (hnow : now < 2 ^ 64) (hwrap : 2 ^ 64 ≤ now + d.toNat)
    (hwrap2 : now + d.toNat < 2 ^ 65) :
    t.utcstamp = .ok (epochNs t - 2 ^ 64) ∧
    finishOf now d = now + d.toNat - 2 ^ 64 := by
  constructor
  · rw [utcstamp_eq t]
    simp only [Except.ok.injEq]
    have hub : epochNs t < 2 ^ 65 := epochNs_ub t hy1 hy2 hm1 hd31 hh hmi hs hms hus hns
    rw [two_pow_65_nat] at hub
    rw [two_pow_64_nat] at hbig ⊢
    omega
  · unfold finishOf
    rw [two_pow_64_int]
    rw [two_pow_65_nat] at hwrap2
    rw [two_pow_64_nat] at hnow hwrap ⊢
    omega

theorem utc_arith_wraps_witness :
    Time.utcstamp ⟨2600, 1, 1, 0, 0, 0, 0, 0, 0⟩ =
      .ok (epochNs ⟨2600, 1, 1, 0, 0, 0, 0, 0, 0⟩ - 2 ^ 64) ∧
    finishOf 18446744073709551615 2 = 18446744073709551615 + (2 : Int).toNat - 2 ^ 64 :=
  utc_arith_wraps ⟨2600, 1, 1, 0, 0, 0, 0, 0, 0⟩ 18446744073709551615 2
    (by decide) (by decide) (by decide) (by decide) (by decide) (by decide) (by decide)
    (by decide) (by decide) (by decide) (by decide) (by decide) (by decide) (by decide)
    (by decide) (by decide)

/-- C6 counterexample: composing the valid Calendar Time 2600-01-01 has true
epoch nanosecond count 19880899200000000000, which exceeds 2^64; the code
returns a success carrying the wrapped value instead of failing with any
overflow error, and the lock deadline computation likewise wraps. -/
theorem utc_overflow_cex :
    Time.utcstamp ⟨2600, 1, 1, 0, 0, 0, 0, 0, 0⟩ = .ok (19880899200000000000 % 2 ^ 64) ∧
    2 ^ 64 ≤ (19880899200000000000 : Nat) ∧
    (19880899200000000000 : Nat) % 2 ^ 64 ≠ 19880899200000000000 ∧
    epochNs ⟨2600, 1, 1, 0, 0, 0, 0, 0, 0⟩ = 19880899200000000000 ∧
    finishOf (2 ^ 64 - 1) 2 = 1 := by
  refine ⟨by decide, by decide, by decide, by decide, by decide⟩

/-- C7 (amended): composition converts the date/time fields to whole seconds
through the platform composition call and returns the 64-bit value
seconds * 10^9 + ms * 10^6 + us * 10^3 + ns reduced modulo 2^64 (equal to
the exact sum whenever that sum is below 2^64), and fails with
SystemException exactly when the platform call returns -1; the UTC and local
variants differ only in the platform call used and the message text. -/
theorem compose_formula_amended (f : Tm → Int) (t : Time) :
    (f t.toTm = -1 →
      utcstampGen f t = .error (.system "Cannot convert date & time to UTC timestamp!") ∧
      localstampGen f t = .error (.system "Cannot convert date & time to local timestamp!")) ∧
    (f t.toTm ≠ -1 →
      utcstampGen f t = .ok (((f t.toTm * 1000000000 + (t.millisecond : Int) * 1000000 +
        (t.microsecond : Int) * 1000 + (t.nanosecond : Int)) % (2 ^ 64 : Int)).toNat) ∧
      localstampGen f t = .ok (((f t.toTm * 1000000000 + (t.millisecond : Int) * 1000000 +
        (t.microsecond : Int) * 1000 + (t.nanosecond : Int)) % (2 ^ 64 : Int)).toNat)) ∧
    (0 ≤ f t.toTm →
      (f t.toTm).toNat * 1000000000 + t.millisecond * 1000000 + t.microsecond * 1000 +
        t.nanosecond < 2 ^ 64 →
      utcstampGen f t = .ok ((f t.toTm).toNat * 1000000000 + t.millisecond * 1000000 +
        t.microsecond * 1000 + t.nanosecond)) := by
  refine ⟨?_, ?_, ?_⟩
  · intro h
    constructor
    · unfold utcstampGen; rw [if_pos h]
    · unfold localstampGen; rw [if_pos h]
  · intro h
    constructor
    · unfold utcstampGen; rw [if_neg h]
    · unfold localstampGen; rw [if_neg h]
  · intro h0 hlt
    unfold utcstampGen
    rw [if_neg (show ¬ (f t.toTm = -1) by intro hcon; rw [hcon] at h0; omega)]
    simp only [Except.ok.injEq]
    rw [two_pow_64_int]
    rw [two_pow_64_nat] at hlt
    omega

theorem compose_formula_witness :
    (utcstampGen wPlatFail wTime0 =
       .error (.system "Cannot convert date & time to UTC timestamp!") ∧
     localstampGen wPlatFail wTime0 =
       .error (.system "Cannot convert date & time to local timestamp!")) ∧
    utcstampGen wPlatOk wTime0 = .ok ((wPlatOk wTime0.toTm).toNat * 1000000000 +
      wTime0.millisecond * 1000000 + wTime0.microsecond * 1000 + wTime0.nanosecond) :=
  ⟨(compose_formula_amended wPlatFail wTime0).1 (by decide),
   (compose_formula_amended wPlatOk wTime0).2.2 (by decide) (by decide)⟩

/-- C7 counterexample: for the valid Calendar Time 2700-01-01 00:00:00 with
nanosecond 1, the platform composition yields 23036572800 seconds, but the
stored Timestamp value is not seconds * 10^9 + 1: the uint64 arithmetic has
wrapped, so the claimed exact equality fails. -/
theorem compose_formula_cex :
    Time.utcstamp ⟨2700, 1, 1, 0, 0, 0, 0, 0, 1⟩ = .ok (23036572800000000001 % 2 ^ 64) ∧
    timegmSecs (Time.toTm ⟨2700, 1, 1, 0, 0, 0, 0, 0, 1⟩) = 23036572800 ∧
    (23036572800000000001 : Nat) % 2 ^ 64 ≠ 23036572800 * 1000000000 + 1 := by
  refine ⟨by decide, by decide, by decide⟩

/-- C8: decomposition passes the whole-second quotient of the timestamp to
the platform calendar conversion and derives the millisecond, microsecond
and nanosecond fields by modulo-1000 operations on the timestamp total
milliseconds, microseconds and nanoseconds; each sub-second field is in
0..999 and the three together reconstruct the sub-second remainder. -/
theorem decompose_structure (g : Nat → Option Tm) (ts : Nat) (tm : Tm)
    (hg : g (ts / 1000000000) = some tm) :
    decomposeGen g ts = .ok ⟨tm.year + 1900, tm.mon + 1, tm.mday, tm.hour, tm.min, tm.sec % 60,
      ts / 1000000 % 1000, ts / 1000 % 1000, ts % 1000⟩ ∧
    ts / 1000000 % 1000 = ts % 1000000000 / 1000000 ∧
    ts / 1000 % 1000 = ts % 1000000 / 1000 ∧
    ts % 1000000000 = ts % 1000000000 / 1000000 * 1000000 + ts % 1000000 / 1000 * 1000 +
      ts % 1000 ∧
    ts / 1000000 % 1000 ≤ 999 ∧ ts / 1000 % 1000 ≤ 999 ∧ ts % 1000 ≤ 999 := by
  refine ⟨?_, by omega, by omega, by omega, by omega, by omega, by omega⟩
  unfold decomposeGen
  rw [hg]

theorem decompose_structure_witness :
    decomposeGen wPlatTm 987654321987654321 = .ok ⟨2000, 4, 4, 5, 6, 7, 987, 654, 321⟩ ∧
    987654321987654321 / 1000000 % 1000 = 987654321987654321 % 1000000000 / 1000000 ∧
    987654321987654321 / 1000 % 1000 = 987654321987654321 % 1000000 / 1000 ∧
    987654321987654321 % 1000000000 = 987654321987654321 % 1000000000 / 1000000 * 1000000 +
      987654321987654321 % 1000000 / 1000 * 1000 + 987654321987654321 % 1000 ∧
    987654321987654321 / 1000000 % 1000 ≤ 999 ∧ 987654321987654321 / 1000 % 1000 ≤ 999 ∧
    987654321987654321 % 1000 ≤ 999 :=
  decompose_structure wPlatTm 987654321987654321 ⟨7, 6, 5, 4, 3, 100⟩ (by decide)

lemma fieldRangesOk_decomposeTime (ts : Nat) (hts : ts < 2 ^ 64) :
    fieldRangesOk (decomposeTime ts) := by
  have hts2 : ts ≤ 18446744073709551615 := by rw [two_pow_64_nat] at hts; omega
  have hyd_ge : 1970 ≤ (civilFromDays (ts / 1000000000 / 86400)).1 := by
    rw [civilFromDays_def]
    exact civilYearAux_fst_ge _ 1970 _
  have hyd_le : (civilFromDays (ts / 1000000000 / 86400)).1 ≤
      1970 + ts / 1000000000 / 86400 / 365 := by
    rw [civilFromDays_def]
    exact civilYearAux_fst_le _ 1970 _
  have hdoy : (civilFromDays (ts / 1000000000 / 86400)).2 <
      daysInYear (civilFromDays (ts / 1000000000 / 86400)).1 := by
    rw [civilFromDays_def]
    exact civilYearAux_snd_lt _ 1970 _ (by omega)
  obtain ⟨m, d, hmd, hm1, hm2, hd1, hd2⟩ := monthDayFromDoy_ranges _ _ hdoy
  have hd31 : d ≤ 31 := Nat.le_trans hd2 (daysInMonth_le_31 _ m)
  unfold fieldRangesOk decomposeTime decomposeWith
  simp only [gmtimeModel]
  rw [hmd]
  rw [show ((m, d) : Nat × Nat).1 = m from rfl, show ((m, d) : Nat × Nat).2 = d from rfl]
  refine ⟨by omega, by omega, by omega, by omega, by omega, by omega, by omega, by omega,
          by omega, by omega, by omega, by omega⟩

/-- C10: the second field of every decomposition is the platform broken-down
seconds value reduced modulo 60 (hence at most 59 even if the platform
reports the leap-second value 60), the sub-second fields are at most 999,
and with the modelled platform call every decomposition result satisfies the
documented field-range invariant. -/
theorem decompose_field_ranges (g : Nat → Tm) (ts : Nat) (hts : ts < 2 ^ 64) :
    (decomposeWith g ts).second = (g (ts / 1000000000)).sec % 60 ∧
    (decomposeWith g ts).second ≤ 59 ∧
    (decomposeWith g ts).millisecond ≤ 999 ∧
    (decomposeWith g ts).microsecond ≤ 999 ∧
    (decomposeWith g ts).nanosecond ≤ 999 ∧
    fieldRangesOk (decomposeTime ts) :=
  ⟨rfl,
   show (g (ts / 1000000000)).sec % 60 ≤ 59 by omega,
   show ts / 1000000 % 1000 ≤ 999 by omega,
   show ts / 1000 % 1000 ≤ 999 by omega,
   show ts % 1000 ≤ 999 by omega,
   fieldRangesOk_decomposeTime ts hts⟩

theorem decompose_field_ranges_witness :
    (decomposeWith wTmLeap 18446744073709551615).second =
      (wTmLeap (18446744073709551615 / 1000000000)).sec % 60 ∧
    (decomposeWith wTmLeap 18446744073709551615).second ≤ 59 ∧
    (decomposeWith wTmLeap 18446744073709551615).millisecond ≤ 999 ∧
    (decomposeWith wTmLeap 18446744073709551615).microsecond ≤ 999 ∧
    (decomposeWith wTmLeap 18446744073709551615).nanosecond ≤ 999 ∧
    fieldRangesOk (decomposeTime 18446744073709551615) :=
  decompose_field_ranges wTmLeap 18446744073709551615 (by decide)

end CppCommon
